import Mathlib

/-!
Shallow embedding, in Lean 4, of the request/response bridging core of the
`human-chat-completions` repository: the request model and capability
validator (`src/model/api_model.py`), the SSE stream generator and the
HTTP endpoint handlers (`src/model/api_server.py`), and the pending-answer
rendezvous slot of the operator view (`src/view/chat.py`).

Python `Optional[T]` fields become `Option T`; Python truthiness of such a
field is spelled out at each use site exactly as the source tests it.
Fallible Python code (a `raise`) becomes `Except`.
-/

namespace HumanChat

/-! ### Request data model (`src/model/api_model.py`) -/

/-- FinishReason enum of `api_model.py`: the single member `stop`. -/
inductive FinishReason where
  | stop
deriving DecidableEq, Repr

/-- Content part of a user message
(`ChatCompletionRequestMessageContentPart` union in `api_model.py`):
a text part, an image-url part, or an input-audio part. -/
inductive ContentPart where
  | text (text : String)
  | image_url (url : String) (detail : Option String)
  | input_audio (data : String) (format : String)
deriving DecidableEq, Repr

/-- Python `getattr(part, "type", "")`: each pydantic part class carries a
literal `type` discriminator field. -/
def ContentPart.typeStr : ContentPart → String
  | .text _ => "text"
  | .image_url _ _ => "image_url"
  | .input_audio _ _ => "input_audio"

/-- Content of a user message: `Union[str, List[ContentPart]]`. -/
inductive UserContent where
  | str (s : String)
  | parts (ps : List ContentPart)
deriving DecidableEq, Repr

/-- Message union `ChatCompletionRequestMessage` of `api_model.py`
(system / developer / user / assistant / tool / function). -/
inductive RequestMessage where
  | system (content : String) (name : Option String)
  | developer (content : String) (name : Option String)
  | user (content : UserContent) (name : Option String)
  | assistant (content : Option String) (name : Option String)
  | tool (content : String) (tool_call_id : String)
  | function (content : Option String) (name : String)
deriving DecidableEq, Repr

/-- Response-format type: `Literal["text", "json_object", "json_schema"]`. -/
inductive RFType where
  | text
  | json_object
  | json_schema
deriving DecidableEq, Repr

/-- String value of the `ResponseFormat.type` literal, as it appears in the
validator's error message f-string. -/
def RFType.str : RFType → String
  | .text => "text"
  | .json_object => "json_object"
  | .json_schema => "json_schema"

/-- ResponseFormat of `api_model.py`; the `json_schema` payload
(`Optional[Dict[str, Any]]`) is never inspected by the code, so it is
embedded as an uninspected `Option Unit`. -/
structure ResponseFormat where
  type : RFType
  json_schema : Option Unit := none
deriving DecidableEq, Repr

/-- Python `Union[str, Dict[str, Any]]` for `tool_choice`. The validator only
reads `tool_choice.get("type")` from the dict form and compares it with the
string `"function"`, so dict entries are embedded as string key/value pairs. -/
inductive ToolChoice where
  | str (s : String)
  | dict (entries : List (String × String))
deriving DecidableEq, Repr

/-- Python truthiness of the `tool_choice` union value (`if self.tool_choice:`):
an empty string and an empty dict are falsy. -/
def ToolChoice.truthy : ToolChoice → Bool
  | .str s => s ≠ ""
  | .dict entries => entries ≠ []

/-- Python `dict.get("type")` on the dict form of `tool_choice`. -/
def ToolChoice.getType : ToolChoice → Option String
  | .str _ => none
  | .dict entries => (entries.find? (fun kv => kv.1 == "type")).map (·.2)

/-- CreateChatCompletionRequest of `api_model.py`: the fields the server and
validator read, with the source's pydantic defaults. -/
structure CreateChatCompletionRequest where
  messages : List RequestMessage
  model : String
  stream : Option Bool := some false
  user : Option String := none
  store : Option Bool := some false
  modalities : Option (List String) := none
  response_format : Option ResponseFormat := none
  tool_choice : Option ToolChoice := none
  logprobs : Option Bool := some false
  top_logprobs : Option Int := none
  n : Option Int := some 1
deriving DecidableEq, Repr

/-- Whether a request message is a user message whose content is a list of
parts containing an `input_audio` part (check 5 of `validate_capabilities`:
`isinstance(msg, ChatCompletionRequestUserMessage) and isinstance(msg.content,
list)` then `getattr(part, "type", "") == "input_audio"`). -/
def RequestMessage.hasInputAudio : RequestMessage → Bool
  | .user (.parts ps) _ => ps.any (fun p => p.typeStr == "input_audio")
  | _ => false

/-- Capability validator `CreateChatCompletionRequest.validate_capabilities`
of `api_model.py`, checks 1-7 in source order; a `raise ValueError(msg)`
becomes `Except.error msg`. Python truthiness of each optional field is made
explicit: `if self.modalities:` skips `None` and `[]`; `if self.store:` fires
only on `True`; `if self.tool_choice:` skips `None`, `""` and `{}`;
`if self.logprobs or self.top_logprobs:` fires on `True` or a nonzero int;
the `n` check requires `n is not None and n > 1`. -/
def validate_capabilities (r : CreateChatCompletionRequest) :
    Except String CreateChatCompletionRequest :=
  -- 1. Output Modalities Check (loop raises at the first non-"text" modality)
  match (r.modalities.getD []).find? (fun modality => modality ≠ "text") with
  | some modality =>
    .error ("Human Chat Completions API does not support output modality '"
      ++ modality ++ "'. Only 'text' is supported.")
  | none =>
  -- 2. Store Check
  if r.store == some true then
    .error "Human Chat Completions API does not support 'store=True'. Conversations are not persisted."
  -- 3. Response Format Check
  else if r.response_format.any
      (fun rf => rf.type == .json_object || rf.type == .json_schema) then
    .error ("Human Chat Completions API does not support response_format '"
      ++ ((r.response_format.map (·.type.str)).getD "") ++ "'. Only 'text' is supported.")
  -- 4. Tool Choice Check
  else if r.tool_choice.any (fun tc => tc.truthy && tc == .str "required") then
    .error "Human Chat Completions API does not support tool_choice 'required'."
  else if r.tool_choice.any
      (fun tc => tc.truthy && (match tc with
        | .dict _ => tc.getType == some "function"
        | .str _ => false)) then
    .error "Human Chat Completions API does not support specific tool selection."
  -- 5. Input Audio Check
  else if r.messages.any RequestMessage.hasInputAudio then
    .error "Human Chat Completions API does not support input audio messages."
  -- 6. Logprobs Check
  else if r.logprobs == some true || r.top_logprobs.any (fun k => k != 0) then
    .error "Human Chat Completions API does not support 'logprobs'. Humans cannot calculate token probabilities."
  -- 7. N (Choices) Check
  else if r.n.any (fun k => decide (1 < k)) then
    .error "Human Chat Completions API does not support 'n > 1'. Humans can only provide a single response."
  else
    .ok r

/-! ### Response and chunk models (`src/model/api_model.py`) -/

/-- CompletionTokensDetails with the source's all-zero defaults. -/
structure CompletionTokensDetails where
  reasoning_tokens : Nat := 0
  audio_tokens : Nat := 0
  accepted_prediction_tokens : Nat := 0
  rejected_prediction_tokens : Nat := 0
deriving DecidableEq, Repr

/-- PromptTokensDetails with the source's all-zero defaults. -/
structure PromptTokensDetails where
  audio_tokens : Nat := 0
  cached_tokens : Nat := 0
deriving DecidableEq, Repr

/-- CompletionUsage of `api_model.py`: every counter defaults to zero
(no token accounting is performed anywhere in the server). -/
structure CompletionUsage where
  completion_tokens : Nat := 0
  prompt_tokens : Nat := 0
  total_tokens : Nat := 0
  completion_tokens_details : CompletionTokensDetails := {}
  prompt_tokens_details : PromptTokensDetails := {}
deriving DecidableEq, Repr

/-- ChatCompletionResponseMessage: role is the literal `"assistant"`. -/
structure ChatCompletionResponseMessage where
  role : String := "assistant"
  content : Option String := none
  refusal : Option String := none
deriving DecidableEq, Repr

/-- ChatCompletionChoice of the non-streaming response; `logprobs` is a
client-compatibility field that is always `None`. -/
structure ChatCompletionChoice where
  index : Nat
  message : ChatCompletionResponseMessage
  finish_reason : FinishReason
  logprobs : Option Unit := none
deriving DecidableEq, Repr

/-- CreateChatCompletionResponse with the source's pydantic defaults. -/
structure CreateChatCompletionResponse where
  id : String
  choices : List ChatCompletionChoice
  created : Nat
  model : String
  system_fingerprint : Option String := some "fp_human_backend"
  object : String := "chat.completion"
  usage : CompletionUsage := {}
deriving DecidableEq, Repr

/-- ChatCompletionStreamResponseDelta: all fields optional, defaulting to
`None` (the source constructs the terminal chunk's delta with no arguments). -/
structure ChatCompletionStreamResponseDelta where
  role : Option String := none
  content : Option String := none
  refusal : Option String := none
deriving DecidableEq, Repr

/-- ChatCompletionStreamChoice of a streaming chunk. -/
structure ChatCompletionStreamChoice where
  index : Nat
  delta : ChatCompletionStreamResponseDelta
  finish_reason : Option FinishReason := none
  logprobs : Option Unit := none
deriving DecidableEq, Repr

/-- ChatCompletionChunk with the source's pydantic defaults. -/
structure ChatCompletionChunk where
  id : String
  choices : List ChatCompletionStreamChoice
  created : Nat
  model : String
  system_fingerprint : Option String := some "fp_human_backend"
  object : String := "chat.completion.chunk"
  usage : Option CompletionUsage := none
deriving DecidableEq, Repr

/-! ### JSON serialization (pydantic `model_dump_json(exclude_none=True)`)

Compact JSON, fields in pydantic declaration order, `None`-valued fields
dropped. String escaping follows pydantic-core: `"` and `\` are escaped,
the control characters 0x08..0x0D get their short escapes, other control
characters become `\u00XX`, and everything else is emitted as is. -/

/-- Opening brace of a JSON object. -/
def jsonLb : String := "\x7b"

/-- Closing brace of a JSON object. -/
def jsonRb : String := "\x7d"

/-- Hex digit for a value below 16. -/
def hexDigit (n : Nat) : Char :=
  if n < 10 then Char.ofNat (48 + n) else Char.ofNat (87 + n)

/-- JSON escape of one character. -/
def jsonEscapeChar (c : Char) : String :=
  if c = '"' then "\\\""
  else if c = '\\' then "\\\\"
  else if c = '\n' then "\\n"
  else if c = '\r' then "\\r"
  else if c = '\t' then "\\t"
  else if c = Char.ofNat 8 then "\\b"
  else if c = Char.ofNat 12 then "\\f"
  else if c.toNat < 32 then
    "\\u00" ++ String.singleton (hexDigit (c.toNat / 16))
      ++ String.singleton (hexDigit (c.toNat % 16))
  else String.singleton c

/-- JSON string literal for `s`. -/
def jsonStr (s : String) : String :=
  "\"" ++ String.join (s.toList.map jsonEscapeChar) ++ "\""

/-- JSON object from already-rendered `"key":value` members. -/
def jsonObj (members : List String) : String :=
  jsonLb ++ String.intercalate "," members ++ jsonRb

/-- JSON array from already-rendered element strings. -/
def jsonArr (elems : List String) : String :=
  "[" ++ String.intercalate "," elems ++ "]"

/-- JSON value of the FinishReason string enum. -/
def FinishReason.json : FinishReason → String
  | .stop => jsonStr "stop"

/-- Serialization of a stream delta under `exclude_none=True`. -/
def ChatCompletionStreamResponseDelta.json
    (d : ChatCompletionStreamResponseDelta) : String :=
  jsonObj (List.filterMap (fun o => o)
    [d.role.map (fun r => "\"role\":" ++ jsonStr r),
     d.content.map (fun c => "\"content\":" ++ jsonStr c),
     d.refusal.map (fun c => "\"refusal\":" ++ jsonStr c)])

/-- Serialization of a stream choice under `exclude_none=True`. -/
def ChatCompletionStreamChoice.json (c : ChatCompletionStreamChoice) : String :=
  jsonObj (List.filterMap (fun o => o)
    [some ("\"index\":" ++ toString c.index),
     some ("\"delta\":" ++ c.delta.json),
     c.finish_reason.map (fun f => "\"finish_reason\":" ++ f.json)])

/-- The chunk's `model_dump_json(exclude_none=True)` as used by
`stream_generator`: usage is `None` on every chunk the server emits and is
therefore dropped. -/
def ChatCompletionChunk.model_dump_json (c : ChatCompletionChunk) : String :=
  jsonObj (List.filterMap (fun o => o)
    [some ("\"id\":" ++ jsonStr c.id),
     some ("\"choices\":" ++ jsonArr (c.choices.map ChatCompletionStreamChoice.json)),
     some ("\"created\":" ++ toString c.created),
     some ("\"model\":" ++ jsonStr c.model),
     c.system_fingerprint.map (fun f => "\"system_fingerprint\":" ++ jsonStr f),
     some ("\"object\":" ++ jsonStr c.object)])

/-! ### SSE stream generator (`FastAPIServer.stream_generator`) -/

/-- One `yield` of the async generator: either a chat-completion chunk, or
the literal terminal sentinel. -/
inductive SSEvent where
  | chunk (c : ChatCompletionChunk)
  | done
deriving DecidableEq, Repr

/-- Chunk emitted for the i-th character `token` of the answer: only the
first chunk carries `role="assistant"`, every one carries the single
character as its content delta and no finish reason. -/
def charChunk (chunk_id : String) (created_time : Nat) (model_id : String)
    (i : Nat) (token : Char) : ChatCompletionChunk :=
  { id := chunk_id
    created := created_time
    model := model_id
    choices := [
      { index := 0
        delta :=
          { role := if i == 0 then some "assistant" else none
            content := some (String.singleton token) }
        finish_reason := none }] }

/-- Terminal chunk: empty delta (constructed with no arguments, so every
delta field is `None`) and `finish_reason="stop"`. -/
def finalChunk (chunk_id : String) (created_time : Nat) (model_id : String) :
    ChatCompletionChunk :=
  { id := chunk_id
    created := created_time
    model := model_id
    choices := [
      { index := 0
        delta := {}
        finish_reason := some .stop }] }

/-- The sequence of events `FastAPIServer.stream_generator` yields for the
answer `content`: one chunk per character (`tokens = list(content)`), then
the terminal chunk, then the `[DONE]` sentinel. `chunk_id` and
`created_time` are the values the source computes once from `time.time()`
when the generator starts; the `asyncio.sleep` pacing between yields carries
no data and is not modelled. -/
def stream_generator (content : String) (model_id : String)
    (chunk_id : String) (created_time : Nat) : List SSEvent :=
  (content.toList.enum.map
    (fun it => SSEvent.chunk (charChunk chunk_id created_time model_id it.1 it.2)))
  ++ [SSEvent.chunk (finalChunk chunk_id created_time model_id), SSEvent.done]

/-- Wire frame of one yielded event, exactly as the source formats it:
`f"data: {chunk.model_dump_json(exclude_none=True)}\n\n"` for a chunk and
the literal `"data: [DONE]\n\n"` for the sentinel. -/
def frameWire : SSEvent → String
  | .chunk c => "data: " ++ c.model_dump_json ++ "\n\n"
  | .done => "data: [DONE]\n\n"

/-- Content delta carried by an event: the delta `content` of the first
choice of a chunk (every chunk the generator builds has exactly one
choice), nothing for the sentinel. -/
def eventContentDelta : SSEvent → Option String
  | .chunk c => (c.choices.head?).bind (fun ch => ch.delta.content)
  | .done => none

/-- Role carried by an event, analogous to `eventContentDelta`. -/
def eventRole : SSEvent → Option String
  | .chunk c => (c.choices.head?).bind (fun ch => ch.delta.role)
  | .done => none

/-- Finish reason carried by an event. -/
def eventFinishReason : SSEvent → Option FinishReason
  | .chunk c => (c.choices.head?).bind (fun ch => ch.finish_reason)
  | .done => none

/-- Concatenation, in emission order, of every content delta of a stream. -/
def deltaConcat (events : List SSEvent) : String :=
  String.join (events.filterMap eventContentDelta)

/-! ### Chat-completions endpoint (`FastAPIServer.chat_completions`) -/

/-- What the handler returns: a `StreamingResponse` wrapping the generator's
events, or a single non-streaming `CreateChatCompletionResponse`. -/
inductive ChatCompletionsResult where
  | streaming (events : List SSEvent)
  | completion (resp : CreateChatCompletionResponse)
deriving DecidableEq, Repr

/-- `FastAPIServer.chat_completions` after the collaborator supplied
`response_content` (the awaited result of `on_message_received`); `now` is
`int(time.time())`. The branch mirrors `if request.stream:` — Python
truthiness, so only `stream=True` selects the streaming arm. -/
def chat_completions (request : CreateChatCompletionRequest)
    (response_content : String) (now : Nat) : ChatCompletionsResult :=
  let model_id := request.model
  match request.stream with
  | some true =>
    .streaming (stream_generator response_content model_id
      ("chatcmpl-" ++ toString now) now)
  | _ =>
    .completion
      { id := "chatcmpl-" ++ toString now
        created := now
        model := model_id
        choices := [
          { index := 0
            message := { role := "assistant", content := some response_content }
            finish_reason := .stop }] }

/-! ### Model listing endpoints (`FastAPIServer.list_models`,
`FastAPIServer.retrieve_model`) -/

/-- Modelled from the spec: the `Model` descriptor class is imported by
`api_server.py` from `model.api_model` but its definition is absent from the
repository's files. The spec describes it as the record for the single
synthetic "human" model: id, creation/launch timestamp, owner tag
(`{id:"human", created, owned_by:"human-backend"}`). -/
structure Model where
  id : String
  created : Nat
  owned_by : String
deriving DecidableEq, Repr

/-- Modelled from the spec: `ListModelsResponse` (also absent from the
repository's files) wraps the descriptor list as `{data: [...]}`. -/
structure ListModelsResponse where
  data : List Model
deriving DecidableEq, Repr

/-- `FastAPIServer.list_models`: builds the one-element list from the
server's `launch_time` recorded in `__init__` (`int(self.launch_time)`). -/
def list_models (launch_time : Nat) : ListModelsResponse :=
  { data := [{ id := "human", created := launch_time, owned_by := "human-backend" }] }

/-- Python `==` between the `model_id` string and a pydantic `Model`
instance, as evaluated by `model_id not in allowed_models` in
`FastAPIServer.retrieve_model`: `str.__eq__` returns `NotImplemented` for a
non-`str`, and a pydantic `BaseModel.__eq__` returns `NotImplemented` for a
non-`BaseModel`, so Python falls back to identity and the comparison is
`False` for every string and every descriptor. -/
def strEqModel (model_id : String) (m : Model) : Bool :=
  false

/-- Outcome of `FastAPIServer.retrieve_model`: the descriptor, an
`HTTPException` with its structured `error` detail, or the `TypeError` that
subscripting the `allowed_models` set (`allowed_models[model_id]`) would
raise on the success path. -/
inductive RetrieveModelResult where
  | ok (m : Model)
  | httpError (status : Nat) (etype : String) (param : String) (code : String)
      (message : String)
  | typeError
deriving DecidableEq, Repr

/-- `FastAPIServer.retrieve_model`: `allowed_models` is the one-element set
of descriptors; `model_id not in allowed_models` tests the request's string
against those `Model` objects with Python `==` (see `strEqModel`); a miss
raises `HTTPException(404, ...)` and a hit would evaluate
`allowed_models[model_id]`, which subscripts a set. (In the source the set
literal itself would already raise `TypeError` at request time, pydantic
models being unhashable unless frozen; this embedding charitably assumes a
hashable descriptor so that the membership test is reached.) -/
def retrieve_model (launch_time : Nat) (model_id : String) : RetrieveModelResult :=
  let allowed_models : List Model :=
    [{ id := "human", created := launch_time, owned_by := "human-backend" }]
  if ¬ allowed_models.any (strEqModel model_id) then
    .httpError 404 "invalid_request_error" "model" "model_not_found"
      ("The model '" ++ model_id ++ "' does not exist")
  else
    .typeError

/-! ### Server lifecycle (`FastAPIServer.start`) -/

/-- The listener thread: `threading.Thread.is_alive()`. -/
structure ListenerThread where
  alive : Bool
deriving DecidableEq, Repr

/-- The mutable state of a `FastAPIServer` instance that `start` can read or
write: the `_thread` attribute (`None` until the first start) plus the
fields fixed in `__init__` and never touched by `start`. -/
structure ServerState where
  thread : Option ListenerThread
  launch_time : Nat
  port : Nat
deriving DecidableEq, Repr

/-- `FastAPIServer.start`: `if self._thread and self._thread.is_alive():
return` — otherwise spawn and start a fresh daemon thread. The second
component counts the threads spawned by this call (0 or 1). -/
def FastAPIServer.start (s : ServerState) : ServerState × Nat :=
  match s.thread with
  | some t =>
    if t.alive then (s, 0)
    else ({ s with thread := some { alive := true } }, 1)
  | none => ({ s with thread := some { alive := true } }, 1)

/-! ### Pending-answer rendezvous slot (`src/view/chat.py`) -/

/-- State of one `asyncio` future: pending, resolved with the operator's
answer, or cancelled (client disconnect / task cancellation). -/
inductive FutureState where
  | pending
  | resolved (answer : String)
  | cancelled
deriving DecidableEq, Repr

/-- `Future.done()`: true once resolved or cancelled. -/
def FutureState.done : FutureState → Bool
  | .pending => false
  | .resolved _ => true
  | .cancelled => true

/-- `Future.set_result(answer)`: fulfills a pending future; on a future that
is already done, asyncio raises `InvalidStateError`. -/
def FutureState.set_result (f : FutureState) (answer : String) :
    Except String FutureState :=
  match f with
  | .pending => .ok (.resolved answer)
  | _ => .error "InvalidStateError"

/-- State of a `ChatView` instance relevant to the rendezvous: every future
ever created by `on_message_received` (indexed by creation order, so that an
overwritten future keeps an identity) and `self.pending_future`, which holds
the index of the future the slot currently references (`None` before the
first request). -/
structure ViewState where
  futures : List FutureState
  pending_future : Option Nat
deriving DecidableEq, Repr

/-- The operator-submission path of `ChatView._add_message`: when
`is_response` is set it runs `if self.pending_future is not None and not
self.pending_future.done(): self.pending_future.set_result(message)`. The
`.ok`/`.error` distinguishes a normal return from an uncaught
`InvalidStateError`. An index that points outside `futures` cannot arise
from the source (the slot always holds a future object); that branch
returns the state unchanged. -/
def ChatView.add_message (s : ViewState) (message : String)
    (is_response : Bool) : Except String ViewState :=
  if is_response then
    match s.pending_future with
    | some i =>
      match s.futures[i]? with
      | some f =>
        if ¬ f.done then
          match f.set_result message with
          | .ok f2 => .ok { s with futures := s.futures.set i f2 }
          | .error e => .error e
        else .ok s
      | none => .ok s
    | none => .ok s
  else .ok s

/-- The slot-creating prefix of `ChatView.on_message_received`:
`self.pending_future = asyncio.get_running_loop().create_future()` — a fresh
pending future overwrites whatever the slot held. Returns the new state and
the index of the created future. -/
def ChatView.on_message_received_begin (s : ViewState) : ViewState × Nat :=
  ({ futures := s.futures ++ [FutureState.pending]
     pending_future := some s.futures.length },
   s.futures.length)

/-- `asyncio.Future.cancel()` on the future at index `i`: a pending future
becomes cancelled; a done future is left unchanged. -/
def cancelFuture (s : ViewState) (i : Nat) : ViewState :=
  match s.futures[i]? with
  | some .pending => { s with futures := s.futures.set i .cancelled }
  | _ => s

/-- Outcome of `result = await self.pending_future` in
`ChatView.on_message_received`: the awaited coroutine completes only once
the future is resolved; on a pending future it stays suspended — the source
has no timeout branch, so no outcome constructor carries a timeout error. -/
inductive AwaitOutcome where
  | answered (answer : String)
  | still_waiting
  | cancelled_error
deriving DecidableEq, Repr

/-- What awaiting a future in a given state yields. -/
def awaitFuture : FutureState → AwaitOutcome
  | .resolved a => .answered a
  | .pending => .still_waiting
  | .cancelled => .cancelled_error

/-- The whole `ChatView.on_message_received` suspend point for a request
whose collaborator performs no resolving action: the handler creates a fresh
pending future and awaits it. -/
def on_message_received_outcome (s : ViewState) : AwaitOutcome :=
  let (s1, i) := ChatView.on_message_received_begin s
  awaitFuture ((s1.futures[i]?).getD .pending)

/-- The operator-facing transitions of the view that touch the slot:
a new request arriving (`on_message_received` creating and installing a
fresh future) and the operator submitting a response
(`_add_message(..., is_response=True)`, which never raises — see
`add_message_never_raises`). -/
inductive ViewOp where
  | message_received
  | send_response (message : String)
deriving DecidableEq, Repr

/-- One step of the view's slot state machine. -/
def stepView (s : ViewState) : ViewOp → ViewState
  | .message_received => (ChatView.on_message_received_begin s).1
  | .send_response message =>
    match ChatView.add_message s message true with
    | .ok s2 => s2
    | .error _ => s

/-! ### Helper lemmas -/

/-- Folding string append over singleton strings rebuilds the character list. -/
theorem foldl_append_map_singleton (l : List Char) (acc : String) :
    (l.map String.singleton).foldl (fun r t => r ++ t) acc = String.mk (acc.data ++ l) := by
  induction l generalizing acc with
  | nil =>
    apply String.ext
    simp
  | cons c cs ih =>
    simp only [List.map_cons, List.foldl_cons]
    rw [ih]
    apply String.ext
    simp

/-- Joining the singleton strings of a string's characters gives the string back. -/
theorem join_map_singleton (s : String) :
    String.join (s.toList.map String.singleton) = s := by
  rw [String.join, foldl_append_map_singleton]
  apply String.ext
  simp [String.toList]

/-- Content delta of a per-character chunk event. -/
theorem eventContentDelta_charChunk (chunk_id : String) (created : Nat)
    (model_id : String) (i : Nat) (token : Char) :
    eventContentDelta (SSEvent.chunk (charChunk chunk_id created model_id i token)) =
      some (String.singleton token) := rfl

/-! ### C1: streaming round trip, wire framing, terminal structure -/

/-- C1. For every streaming request and collaborator answer: concatenating
the content deltas of the emitted chunks in emission order reproduces the
answer exactly; every frame is wire-formatted as `data: <json>` followed by
two newlines; and the stream is a body of content chunks (none of which
carries a finish reason or is the sentinel) followed by a terminal chunk
with `finish_reason="stop"` and an empty delta and then the literal
`data: [DONE]` frame. -/
theorem c1_stream_round_trip_and_framing (content model_id chunk_id : String)
    (created : Nat) :
    deltaConcat (stream_generator content model_id chunk_id created) = content
    ∧ (∀ f ∈ (stream_generator content model_id chunk_id created).map frameWire,
        ∃ j, f = "data: " ++ j ++ "\n\n")
    ∧ ((stream_generator content model_id chunk_id created).map frameWire).getLast? =
        some "data: [DONE]\n\n"
    ∧ (∃ body, stream_generator content model_id chunk_id created =
          body ++ [SSEvent.chunk (finalChunk chunk_id created model_id), SSEvent.done]
        ∧ eventFinishReason (SSEvent.chunk (finalChunk chunk_id created model_id)) =
            some .stop
        ∧ eventContentDelta (SSEvent.chunk (finalChunk chunk_id created model_id)) = none
        ∧ (finalChunk chunk_id created model_id).choices.map (·.delta) = [{}]
        ∧ ∀ e ∈ body, eventFinishReason e = none ∧ e ≠ SSEvent.done) := by
  refine ⟨?_, ?_, ?_, ?_⟩
  · -- round trip
    unfold deltaConcat stream_generator
    rw [List.filterMap_append, List.filterMap_map]
    have h1 : (eventContentDelta ∘ fun it : Nat × Char =>
        SSEvent.chunk (charChunk chunk_id created model_id it.1 it.2)) =
        (some ∘ fun it : Nat × Char => String.singleton it.2) := by
      funext it
      rfl
    have h2 : List.filterMap eventContentDelta
        [SSEvent.chunk (finalChunk chunk_id created model_id), SSEvent.done] = [] := rfl
    rw [h1, h2, List.filterMap_eq_map, List.append_nil]
    have h3 : content.toList.enum.map (fun it : Nat × Char => String.singleton it.2) =
        (content.toList.enum.map Prod.snd).map String.singleton :=
      (List.map_map _ _ _).symm
    rw [h3, List.enum_map_snd, join_map_singleton]
  · -- wire format of every frame
    intro f hf
    rcases List.mem_map.mp hf with ⟨e, _, rfl⟩
    cases e with
    | chunk c => exact ⟨c.model_dump_json, rfl⟩
    | done => exact ⟨"[DONE]", by decide⟩
  · -- the last frame is the sentinel
    rw [stream_generator, List.map_append, List.getLast?_append]
    rfl
  · -- terminal structure
    refine ⟨(content.toList.enum.map
      (fun it : Nat × Char => SSEvent.chunk (charChunk chunk_id created model_id it.1 it.2))),
      rfl, rfl, rfl, rfl, ?_⟩
    intro e he
    rcases List.mem_map.mp he with ⟨it, _, rfl⟩
    exact ⟨rfl, by simp⟩

/-! ### C9: the empty answer yields exactly the terminal chunk and sentinel -/

/-- C9. For the empty collaborator answer, the stream generator emits exactly
two frames — the terminal chunk with `finish_reason="stop"` and an empty
delta, then the `[DONE]` sentinel — and no frame of that stream carries a
role or a content delta. -/
theorem c9_empty_answer_stream (model_id chunk_id : String) (created : Nat) :
    stream_generator "" model_id chunk_id created =
      [SSEvent.chunk (finalChunk chunk_id created model_id), SSEvent.done]
    ∧ eventFinishReason (SSEvent.chunk (finalChunk chunk_id created model_id)) =
        some .stop
    ∧ ∀ e ∈ stream_generator "" model_id chunk_id created,
        eventRole e = none ∧ eventContentDelta e = none := by
  refine ⟨rfl, rfl, ?_⟩
  intro e he
  have h : stream_generator "" model_id chunk_id created =
      [SSEvent.chunk (finalChunk chunk_id created model_id), SSEvent.done] := rfl
  rw [h] at he
  rcases he with _ | ⟨_, he⟩
  · exact ⟨rfl, rfl⟩
  · rcases he with _ | ⟨_, he⟩
    · exact ⟨rfl, rfl⟩
    · cases he

/-! ### Concrete requests used by the validator and endpoint theorems -/

/-- The spec's scenario user message `{"role":"user","content":"hi"}`. -/
def userHi : RequestMessage := .user (.str "hi") none

/-- The spec's scenario request `{"model":"human","messages":[...],
"stream":false}`: every capability flag at its pydantic default. -/
def baseReq : CreateChatCompletionRequest := { messages := [userHi], model := "human" }

/-- A user message carrying an `input_audio` content part. -/
def audioMsg : RequestMessage :=
  .user (.parts [.input_audio "UklGRg==" "wav"]) none

/-! ### C2: non-streaming response shape -/

/-- C2. For every valid request with `stream=false` and every collaborator
answer, the response has exactly one choice, with index 0, finish reason
`stop`, message role `assistant`, message content equal to the answer, and
the response's model field echoed from the request. -/
theorem c2_non_streaming_response (request : CreateChatCompletionRequest)
    (answer : String) (now : Nat)
    (hvalid : validate_capabilities request = .ok request)
    (hstream : request.stream = some false) :
    chat_completions request answer now = .completion
      { id := "chatcmpl-" ++ toString now
        created := now
        model := request.model
        choices := [
          { index := 0
            message := { role := "assistant", content := some answer }
            finish_reason := .stop }] } := by
  unfold chat_completions
  rw [hstream]

/-- C2 witness: the spec's scenario — request `{"model":"human",
"messages":[{"role":"user","content":"hi"}],"stream":false}` with
collaborator answer `"hello"` yields `choices[0].message.content == "hello"`. -/
theorem c2_non_streaming_response_witness :
    chat_completions baseReq "hello" 7 = .completion
      { id := "chatcmpl-" ++ toString 7
        created := 7
        model := "human"
        choices := [
          { index := 0
            message := { role := "assistant", content := some "hello" }
            finish_reason := .stop }] } :=
  c2_non_streaming_response baseReq "hello" 7 rfl rfl

/-! ### C3: capability validation -/

/-- C3 counterexample to the claim as stated: `top_logprobs` set (to 0) is
accepted, because `if self.logprobs or self.top_logprobs:` uses Python
truthiness and `0` is falsy. -/
theorem c3_top_logprobs_zero_accepted :
    validate_capabilities { baseReq with top_logprobs := some 0 } =
      .ok { baseReq with top_logprobs := some 0 } := rfl

/-- C3 (amended). Validation fails, independently, for: a non-"text"
modality, `store=true`, `response_format.type` of `json_object` or
`json_schema`, `tool_choice="required"` or an explicit function selection,
a user message with an `input_audio` part, `logprobs=true` or `top_logprobs`
set to a nonzero value, and `n` greater than 1; the error messages of
distinct violated capabilities are pairwise distinct; and a request
violating none of these rules passes validation. -/
theorem c3_unsupported_capabilities_rejected_distinctly :
    validate_capabilities { baseReq with modalities := some ["image"] } =
      .error "Human Chat Completions API does not support output modality 'image'. Only 'text' is supported."
    ∧ validate_capabilities { baseReq with store := some true } =
      .error "Human Chat Completions API does not support 'store=True'. Conversations are not persisted."
    ∧ validate_capabilities { baseReq with response_format := some { type := .json_object } } =
      .error "Human Chat Completions API does not support response_format 'json_object'. Only 'text' is supported."
    ∧ validate_capabilities { baseReq with response_format := some { type := .json_schema } } =
      .error "Human Chat Completions API does not support response_format 'json_schema'. Only 'text' is supported."
    ∧ validate_capabilities { baseReq with tool_choice := some (.str "required") } =
      .error "Human Chat Completions API does not support tool_choice 'required'."
    ∧ validate_capabilities { baseReq with tool_choice := some (.dict [("type", "function")]) } =
      .error "Human Chat Completions API does not support specific tool selection."
    ∧ validate_capabilities { baseReq with messages := [audioMsg] } =
      .error "Human Chat Completions API does not support input audio messages."
    ∧ validate_capabilities { baseReq with logprobs := some true } =
      .error "Human Chat Completions API does not support 'logprobs'. Humans cannot calculate token probabilities."
    ∧ validate_capabilities { baseReq with top_logprobs := some 3 } =
      .error "Human Chat Completions API does not support 'logprobs'. Humans cannot calculate token probabilities."
    ∧ validate_capabilities { baseReq with n := some 2 } =
      .error "Human Chat Completions API does not support 'n > 1'. Humans can only provide a single response."
    ∧ List.Pairwise (fun a b => a ≠ b)
      ["Human Chat Completions API does not support output modality 'image'. Only 'text' is supported.",
       "Human Chat Completions API does not support 'store=True'. Conversations are not persisted.",
       "Human Chat Completions API does not support response_format 'json_object'. Only 'text' is supported.",
       "Human Chat Completions API does not support tool_choice 'required'.",
       "Human Chat Completions API does not support specific tool selection.",
       "Human Chat Completions API does not support input audio messages.",
       "Human Chat Completions API does not support 'logprobs'. Humans cannot calculate token probabilities.",
       "Human Chat Completions API does not support 'n > 1'. Humans can only provide a single response."]
    ∧ validate_capabilities baseReq = .ok baseReq := by
  refine ⟨rfl, rfl, rfl, rfl, rfl, rfl, rfl, rfl, rfl, rfl, ?_, rfl⟩
  decide

/-! ### C4: retrieving a model by id -/

/-- C4. Every lookup through `FastAPIServer.retrieve_model` — the id
`"human"` included — takes the 404 branch, because the membership test
compares the request's string against `Model` objects. The claimed success
of `GET /v1/models/human` is unreachable in the source. -/
theorem c4_retrieve_model_always_not_found (launch_time : Nat) (model_id : String) :
    retrieve_model launch_time model_id =
      .httpError 404 "invalid_request_error" "model" "model_not_found"
        ("The model '" ++ model_id ++ "' does not exist") := by
  unfold retrieve_model
  simp [strEqModel]

/-- C4 witness at the failing input: `GET /v1/models/human` itself 404s. -/
theorem c4_retrieve_model_human_not_found :
    retrieve_model 0 "human" =
      .httpError 404 "invalid_request_error" "model" "model_not_found"
        "The model 'human' does not exist" :=
  c4_retrieve_model_always_not_found 0 "human"

/-! ### C6: the suspend point has no timeout -/

/-- C6. A request whose collaborator never resolves the pending future
leaves `await self.pending_future` suspended: the outcome is
`still_waiting`, and no constructor of `AwaitOutcome` carries a timeout
error because the source has no timeout branch at all. -/
theorem c6_await_never_times_out (s : ViewState) :
    on_message_received_outcome s = .still_waiting := by
  unfold on_message_received_outcome
  simp [ChatView.on_message_received_begin, List.getElem?_concat_length, awaitFuture]

/-! ### C5: resolving is effective at most once -/

/-- C5. The operator-submission path never raises (for every slot state the
guarded `set_result` returns normally); fulfilling an already-done slot —
resolved or cancelled after the awaiting request was abandoned — changes
nothing, so no second answer is ever delivered; and after any submission a
later, unrelated request still gets a fresh pending future installed in the
slot. -/
theorem c5_resolve_effective_at_most_once :
    (∀ (s : ViewState) (message : String) (b : Bool),
      ∃ s2, ChatView.add_message s message b = .ok s2)
    ∧ (∀ (s : ViewState) (message : String) (i : Nat) (f : FutureState),
        s.pending_future = some i → s.futures[i]? = some f → f.done = true →
        ChatView.add_message s message true = .ok s)
    ∧ (∀ (s : ViewState) (message : String) (s2 : ViewState),
        ChatView.add_message s message true = .ok s2 →
        (ChatView.on_message_received_begin s2).1.pending_future = some s2.futures.length
        ∧ (ChatView.on_message_received_begin s2).1.futures[s2.futures.length]? =
            some .pending) := by
  refine ⟨?_, ?_, ?_⟩
  · intro s message b
    cases b with
    | false => exact ⟨s, rfl⟩
    | true =>
      cases hpf : s.pending_future with
      | none => exact ⟨s, by simp [ChatView.add_message, hpf]⟩
      | some i =>
        cases hf : s.futures[i]? with
        | none => exact ⟨s, by simp [ChatView.add_message, hpf, hf]⟩
        | some f =>
          cases f with
          | pending =>
            exact ⟨{ s with futures := s.futures.set i (FutureState.resolved message) },
              by simp [ChatView.add_message, hpf, hf, FutureState.done,
                FutureState.set_result]⟩
          | resolved a =>
            exact ⟨s, by simp [ChatView.add_message, hpf, hf, FutureState.done]⟩
          | cancelled =>
            exact ⟨s, by simp [ChatView.add_message, hpf, hf, FutureState.done]⟩
  · intro s message i f hpf hf hd
    simp [ChatView.add_message, hpf, hf, hd]
  · intro s message s2 _
    refine ⟨rfl, ?_⟩
    show ((s2.futures ++ [FutureState.pending])[s2.futures.length]?) = some .pending
    exact List.getElem?_concat_length _ _

/-- C5 witness: submitting against an already-resolved slot is a no-op that
returns normally. -/
theorem c5_resolve_effective_at_most_once_witness :
    ChatView.add_message
      { futures := [FutureState.resolved "first answer"], pending_future := some 0 }
      "late answer" true =
      .ok { futures := [FutureState.resolved "first answer"], pending_future := some 0 } :=
  c5_resolve_effective_at_most_once.2.1 _ "late answer" 0
    (FutureState.resolved "first answer") rfl rfl rfl

/-! ### C7: the static model list -/

/-- C7. `GET /v1/models` returns the list of exactly one descriptor — id
`"human"`, `owned_by="human-backend"`, created from the server's launch
time — and `launch_time` is fixed at construction: `start` never changes
it, so the same server instance answers every call identically. -/
theorem c7_list_models_single_human (launch_time : Nat) (srv : ServerState) :
    list_models launch_time =
      { data := [{ id := "human", created := launch_time, owned_by := "human-backend" }] }
    ∧ ((FastAPIServer.start srv).1).launch_time = srv.launch_time := by
  refine ⟨rfl, ?_⟩
  unfold FastAPIServer.start
  cases srv.thread with
  | none => rfl
  | some t =>
    by_cases ha : t.alive <;> simp [ha]

/-! ### C8: starting an already-running server is a no-op -/

/-- C8. When the listener thread is alive, `start()` returns immediately: it
spawns no second listener and leaves the server state unchanged. -/
theorem c8_start_noop_when_alive (s : ServerState) (t : ListenerThread)
    (hthread : s.thread = some t) (halive : t.alive = true) :
    FastAPIServer.start s = (s, 0) := by
  unfold FastAPIServer.start
  rw [hthread]
  simp [halive]

/-- C8 witness: a concrete running server. -/
theorem c8_start_noop_when_alive_witness :
    FastAPIServer.start
      { thread := some { alive := true }, launch_time := 17, port := 8080 } =
      ({ thread := some { alive := true }, launch_time := 17, port := 8080 }, 0) :=
  c8_start_noop_when_alive _ { alive := true } rfl rfl

/-! ### C10: the slot holds the most recent future -/

/-- Invariant of the view state: the future created at index `i` is still
pending and the slot references a strictly newer future, so no reachable
operation can ever fulfill future `i` again. -/
def overwrittenInv (i : Nat) (s : ViewState) : Prop :=
  s.futures[i]? = some .pending ∧ ∀ j, s.pending_future = some j → i < j

/-- Every view transition preserves `overwrittenInv`: a new request installs
an even newer future, and a submission only touches the slot's target. -/
theorem stepView_preserves_overwrittenInv (i : Nat) (s : ViewState) (op : ViewOp)
    (h : overwrittenInv i s) : overwrittenInv i (stepView s op) := by
  obtain ⟨hpend, hslot⟩ := h
  have hilen : i < s.futures.length := by
    rcases List.getElem?_eq_some.mp hpend with ⟨hlt, _⟩
    exact hlt
  cases op with
  | message_received =>
    refine ⟨?_, ?_⟩
    · show ((s.futures ++ [FutureState.pending])[i]?) = some .pending
      rw [List.getElem?_append_left hilen]
      exact hpend
    · intro j hj
      have : s.futures.length = j := by
        simpa [stepView, ChatView.on_message_received_begin] using hj
      omega
  | send_response msg =>
    cases hpf : s.pending_future with
    | none =>
      simpa [overwrittenInv, stepView, ChatView.add_message, hpf] using hpend
    | some j =>
      have hij : i < j := hslot j hpf
      cases hfj : s.futures[j]? with
      | none =>
        simpa [overwrittenInv, stepView, ChatView.add_message, hpf, hfj] using
          And.intro hpend hij
      | some f =>
        cases f with
        | pending =>
          have hstep : stepView s (.send_response msg) =
              { s with futures := s.futures.set j (FutureState.resolved msg) } := by
            simp [stepView, ChatView.add_message, hpf, hfj, FutureState.done,
              FutureState.set_result]
          rw [hstep]
          refine ⟨?_, ?_⟩
          · show ((s.futures.set j (FutureState.resolved msg))[i]?) = some .pending
            rw [List.getElem?_set_ne (by omega : j ≠ i)]
            exact hpend
          · intro k hk
            exact hslot k hk
        | resolved a =>
          simpa [overwrittenInv, stepView, ChatView.add_message, hpf, hfj,
            FutureState.done] using And.intro hpend hij
        | cancelled =>
          simpa [overwrittenInv, stepView, ChatView.add_message, hpf, hfj,
            FutureState.done] using And.intro hpend hij

/-- A submitted response against a slot holding a pending future resolves
exactly that future and changes nothing else. -/
theorem stepView_send_resolves (s : ViewState) (i : Nat) (msg : String)
    (hpf : s.pending_future = some i) (hf : s.futures[i]? = some .pending) :
    stepView s (.send_response msg) =
      { s with futures := s.futures.set i (FutureState.resolved msg) } := by
  simp [stepView, ChatView.add_message, hpf, hf, FutureState.done,
    FutureState.set_result]

/-- The invariant survives any sequence of view transitions. -/
theorem foldl_stepView_preserves_overwrittenInv (i : Nat) (ops : List ViewOp)
    (s : ViewState) (h : overwrittenInv i s) :
    overwrittenInv i (ops.foldl stepView s) := by
  induction ops generalizing s with
  | nil => exact h
  | cons op rest ih => exact ih _ (stepView_preserves_overwrittenInv i s op h)

/-- C10. The slot always holds the future of the most recent
`on_message_received`: when a second request begins awaiting before the
first is resolved, the slot is overwritten with the newer future; the
operator's next submitted answer resolves only that newest future, leaving
the overwritten one pending; and under every continuation of view
transitions the overwritten future is never fulfilled. -/
theorem c10_slot_holds_most_recent_future (s0 : ViewState) (msg : String)
    (ops : List ViewOp) :
    ((ChatView.on_message_received_begin
        (ChatView.on_message_received_begin s0).1).1).pending_future =
      some (s0.futures.length + 1)
    ∧ ((ChatView.on_message_received_begin
        (ChatView.on_message_received_begin s0).1).1).futures[s0.futures.length]? =
      some .pending
    ∧ (stepView (ChatView.on_message_received_begin
        (ChatView.on_message_received_begin s0).1).1
        (.send_response msg)).futures[s0.futures.length + 1]? =
      some (.resolved msg)
    ∧ (stepView (ChatView.on_message_received_begin
        (ChatView.on_message_received_begin s0).1).1
        (.send_response msg)).futures[s0.futures.length]? =
      some .pending
    ∧ (ops.foldl stepView (ChatView.on_message_received_begin
        (ChatView.on_message_received_begin s0).1).1).futures[s0.futures.length]? =
      some .pending := by
  have hbegin : (ChatView.on_message_received_begin
      (ChatView.on_message_received_begin s0).1).1 =
      { futures := (s0.futures ++ [FutureState.pending]) ++ [FutureState.pending]
        pending_future := some (s0.futures.length + 1) } := by
    simp [ChatView.on_message_received_begin]
  have hlen1 : (s0.futures ++ [FutureState.pending]).length = s0.futures.length + 1 := by
    simp
  have holdp : ((s0.futures ++ [FutureState.pending]) ++
      [FutureState.pending])[s0.futures.length]? = some FutureState.pending := by
    rw [List.getElem?_append_left (by simp)]
    exact List.getElem?_concat_length _ _
  have hnewp : ((s0.futures ++ [FutureState.pending]) ++
      [FutureState.pending])[s0.futures.length + 1]? = some FutureState.pending := by
    rw [← hlen1]
    exact List.getElem?_concat_length _ _
  have hstep : stepView (ChatView.on_message_received_begin
      (ChatView.on_message_received_begin s0).1).1 (.send_response msg) =
      { futures := ((s0.futures ++ [FutureState.pending]) ++
          [FutureState.pending]).set (s0.futures.length + 1) (FutureState.resolved msg)
        pending_future := some (s0.futures.length + 1) } := by
    have h1 : (ChatView.on_message_received_begin
        (ChatView.on_message_received_begin s0).1).1.pending_future =
        some (s0.futures.length + 1) := by rw [hbegin]
    have h2 : (ChatView.on_message_received_begin
        (ChatView.on_message_received_begin s0).1).1.futures[s0.futures.length + 1]? =
        some FutureState.pending := by rw [hbegin]; exact hnewp
    rw [stepView_send_resolves _ _ msg h1 h2, hbegin]
  refine ⟨by rw [hbegin], by rw [hbegin]; exact holdp, ?_, ?_, ?_⟩
  · rw [hstep]
    show (((s0.futures ++ [FutureState.pending]) ++ [FutureState.pending]).set
      (s0.futures.length + 1) (FutureState.resolved msg))[s0.futures.length + 1]? =
      some (FutureState.resolved msg)
    rw [List.getElem?_set_self (by simp)]
  · rw [hstep]
    show (((s0.futures ++ [FutureState.pending]) ++ [FutureState.pending]).set
      (s0.futures.length + 1) (FutureState.resolved msg))[s0.futures.length]? =
      some FutureState.pending
    rw [List.getElem?_set_ne (by omega)]
    exact holdp
  · have hinv : overwrittenInv s0.futures.length
        (ChatView.on_message_received_begin
          (ChatView.on_message_received_begin s0).1).1 := by
      rw [hbegin]
      exact ⟨holdp, by intro j hj; simp at hj; omega⟩
    exact (foldl_stepView_preserves_overwrittenInv _ ops _ hinv).1

end HumanChat
